import Mathlib

/-!
Verification of the go-gumroad license-checking library.

The definitions below are a shallow embedding of `main.go`:

* `Card`, `OfferCode`, `Purchase`, `GumroadResponse` mirror the JSON data
  model (`time.Time` values are modelled as `Nat`, with `0` playing the role
  of Go's zero time, so `t.IsZero()` becomes `t = 0`).
* `Product` mirrors the `Product` struct: the `Client` field (an
  `*http.Client`) is not part of the pure state; the network is instead
  passed to the verification functions as a `server` function mapping the
  attempt number to the HTTP response received on that attempt.
* `NewProduct` mirrors `NewProduct` (the transport construction performs no
  observable computation on the pure state beyond the defaults it sets).
* `classify` mirrors the classification chain of `doVerify`
  (main.go lines 110-137), `doVerify` mirrors the retry loop
  (main.go lines 72-138) and `Verify` mirrors `Verify` (main.go lines 68-70).
  `doVerify` is instrumented: it returns a `Trace` recording how many HTTP
  requests were built and executed, the sleeps performed between attempts
  (in milliseconds), and the final result (`none` = nil error, `some msg` =
  error with message `msg`).  Go's recursion is bounded in Lean by a fuel
  argument; `Trace.outOfFuel` records whether the fuel ran out, and we prove
  it never does for the entry point `Verify`, which starts at attempt 1 with
  fuel `maxRetries`.
* `json.Unmarshal` of the body is modelled abstractly by the
  `HTTPResponse.decoded` field: the decode result that `json.Unmarshal`
  would produce on `HTTPResponse.rawBody`.
-/

namespace GoGumroad

/-- `Card` from main.go (the Go field `Type` is rendered `type`). -/
structure Card where
  Visual : String
  type : String
  Bin : String
  ExpiryMonth : String
  ExpiryYear : String
  deriving DecidableEq, Repr

/-- `OfferCode` from main.go. -/
structure OfferCode where
  Code : String
  DisplayedAmountOff : String
  Name : String
  deriving DecidableEq, Repr

/-- `Purchase` from main.go.  `time.Time` fields are `Nat` (0 = zero time);
the `CustomFields []any` field is modelled as a list of strings (its
contents are never inspected by the library). -/
structure Purchase where
  SellerID : String
  ProductID : String
  ProductName : String
  Permalink : String
  ProductPermalink : String
  ShortProductID : String
  Email : String
  Price : Int
  GumroadFee : Int
  Currency : String
  Quantity : Int
  DiscoverFeeCharged : Bool
  CanContact : Bool
  Referrer : String
  Card : Card
  OrderNumber : Int
  SaleID : String
  SaleTimestamp : Nat
  SubscriptionID : String
  Variants : String
  OfferCode : OfferCode
  LicenseKey : String
  IsMultiseatLicense : Bool
  IPCountry : String
  Recurrence : String
  IsGiftReceiverPurchase : Bool
  Refunded : Bool
  Disputed : Bool
  DisputeWon : Bool
  ID : String
  CreatedAt : String
  CustomFields : List String
  SubscriptionEndedAt : Nat
  SubscriptionCancelledAt : Nat
  SubscriptionFailedAt : Nat
  deriving DecidableEq, Repr

/-- `GumroadResponse` from main.go. -/
structure GumroadResponse where
  Success : Bool
  Uses : Int
  Purchase : Purchase
  Message : String
  deriving DecidableEq, Repr

/-- `Product` from main.go.  The `Client` field is replaced by the `server`
argument of the verification functions; `Validate` is the optional custom
validation hook (a Go `func(GumroadResponse) error`, so it returns
`none` for a nil error and `some msg` for an error with message `msg`). -/
structure Product where
  API : String
  ProductID : String
  Validate : Option (GumroadResponse → Option String)

/-- The default production endpoint set by `NewProduct`. -/
def defaultAPI : String := "https://api.gumroad.com/v2/licenses/verify"

/-- `NewProduct` from main.go (lines 27-63): rejects an empty product ID,
otherwise returns a product pointed at the production endpoint.  The
transport construction (certificate pool capture, timeouts) has no
network side effect and no pure-state content beyond the defaults. -/
def NewProduct (productID : String) : Except String Product :=
  if productID = "" then
    .error "license: product ID cannot be empty"
  else
    .ok { API := defaultAPI, ProductID := productID, Validate := none }

/-- `maxRetries` from main.go line 65. -/
def maxRetries : Nat := 5

/-- The classification chain of `doVerify` (main.go lines 110-137), applied
once the body has been decoded: returns `none` for a nil error,
`some msg` for an error with message `msg`. -/
def classify (gp : Product) (key : String) (gumroad : GumroadResponse) : Option String :=
  if gumroad.Success = false then
    some ("license: invalid license: " ++ gumroad.Message)
  else if gumroad.Purchase.Refunded then
    some "license: license was refunded and is now invalid"
  else if gumroad.Purchase.SubscriptionCancelledAt ≠ 0 then
    some "license: subscription was canceled, license is now invalid"
  else if gumroad.Purchase.SubscriptionFailedAt ≠ 0 then
    some ("license: failed to renew subscription, please check at https://gumroad.com/subscriptions/"
      ++ gumroad.Purchase.SubscriptionID ++ "/manage")
  else if gumroad.Purchase.ProductID ≠ gp.ProductID then
    some "license: invalid product ID"
  else if gumroad.Purchase.LicenseKey ≠ key then
    some "license: invalid license"
  else
    match gp.Validate with
    | some v => v gumroad
    | none => none

instance : DecidableEq (Except String GumroadResponse) :=
  fun a b =>
    match a, b with
    | .error e₁, .error e₂ =>
      if h : e₁ = e₂ then .isTrue (by rw [h]) else .isFalse (by simp [h])
    | .error _, .ok _ => .isFalse (by simp)
    | .ok _, .error _ => .isFalse (by simp)
    | .ok g₁, .ok g₂ =>
      if h : g₁ = g₂ then .isTrue (by rw [h]) else .isFalse (by simp [h])

/-- One HTTP exchange as observed by `doVerify`: the status code, the raw
body read from the wire, and the result `json.Unmarshal` would produce on
that body (`.error e` = decode failure with message `e`). -/
structure HTTPResponse where
  statusCode : Nat
  rawBody : String
  decoded : Except String GumroadResponse
  deriving DecidableEq, Repr

/-- The observable behaviour of one `doVerify` call: how many requests were
built (`http.NewRequestWithContext`), how many were executed
(`Client.Do`), the sleeps performed between attempts in milliseconds, and
the returned error (`none` = nil).  `outOfFuel` marks the artificial
fuel-exhaustion case of the Lean model, proved unreachable from `Verify`. -/
structure Trace where
  requestsBuilt : Nat
  attempts : Nat
  sleeps : List Nat
  outOfFuel : Bool
  result : Option String
  deriving DecidableEq, Repr

/-- `doVerify` from main.go (lines 72-138).  `server t` is the HTTP
response received on attempt `t`; `t` is the Go `try` argument.  The
recursion `doVerify(ctx, key, try+1)` is driven by the fuel argument. -/
def doVerify (gp : Product) (key : String) (server : Nat → HTTPResponse) :
    Nat → Nat → Trace
  | _, 0 => { requestsBuilt := 0, attempts := 0, sleeps := [], outOfFuel := true, result := none }
  | t, fuel + 1 =>
    if key = "" then
      { requestsBuilt := 0, attempts := 0, sleeps := [], outOfFuel := false,
        result := some "license: license key cannot be empty" }
    else
      let resp := server t
      if 500 ≤ resp.statusCode then
        if t = maxRetries then
          { requestsBuilt := 1, attempts := 1, sleeps := [], outOfFuel := false,
            result := some ("license: likely gumroad issue: " ++ resp.rawBody) }
        else
          let rest := doVerify gp key server (t + 1) fuel
          { requestsBuilt := 1 + rest.requestsBuilt, attempts := 1 + rest.attempts,
            sleeps := t * 500 :: rest.sleeps, outOfFuel := rest.outOfFuel,
            result := rest.result }
      else
        match resp.decoded with
        | .error e =>
          { requestsBuilt := 1, attempts := 1, sleeps := [], outOfFuel := false,
            result := some ("license: failed check license: " ++ e) }
        | .ok gumroad =>
          { requestsBuilt := 1, attempts := 1, sleeps := [], outOfFuel := false,
            result := classify gp key gumroad }

/-- `Verify` from main.go (lines 68-70): starts the retry recursion at
attempt 1.  Fuel `maxRetries` suffices (proved below: `outOfFuel` is
always `false`). -/
def Verify (gp : Product) (key : String) (server : Nat → HTTPResponse) : Trace :=
  doVerify gp key server 1 maxRetries

/-- The Go zero value of `Purchase`. -/
def zeroPurchase : Purchase :=
  { SellerID := "", ProductID := "", ProductName := "", Permalink := "",
    ProductPermalink := "", ShortProductID := "", Email := "", Price := 0,
    GumroadFee := 0, Currency := "", Quantity := 0, DiscoverFeeCharged := false,
    CanContact := false, Referrer := "",
    Card := { Visual := "", type := "", Bin := "", ExpiryMonth := "", ExpiryYear := "" },
    OrderNumber := 0, SaleID := "", SaleTimestamp := 0, SubscriptionID := "",
    Variants := "",
    OfferCode := { Code := "", DisplayedAmountOff := "", Name := "" },
    LicenseKey := "", IsMultiseatLicense := false, IPCountry := "",
    Recurrence := "", IsGiftReceiverPurchase := false, Refunded := false,
    Disputed := false, DisputeWon := false, ID := "", CreatedAt := "",
    CustomFields := [], SubscriptionEndedAt := 0, SubscriptionCancelledAt := 0,
    SubscriptionFailedAt := 0 }

/-- A concrete product value, as `NewProduct "product"` returns it. -/
def gpEx : Product := { API := defaultAPI, ProductID := "product", Validate := none }

/-- A purchase that is all zero values except a non-zero sale timestamp. -/
def saleOnlyPurchase : Purchase := { zeroPurchase with SaleTimestamp := 1700000000 }

/-- `{"success": true, "purchase": {"sale_timestamp": <non-zero>}}` decoded. -/
def rSaleOnly : GumroadResponse :=
  { Success := true, Uses := 0, Message := "", Purchase := saleOnlyPurchase }

/-- A fixture server answering 200 with `rSaleOnly` on every attempt. -/
def serverSaleOnly : Nat → HTTPResponse := fun _ =>
  { statusCode := 200, rawBody := "", decoded := .ok rSaleOnly }

/-- A fixture server answering 500 with body `some error` on every attempt. -/
def serverAll500 : Nat → HTTPResponse := fun _ =>
  { statusCode := 500, rawBody := "some error", decoded := .error "unexpected" }

/-- `{"success": false, "message": "some error"}` decoded. -/
def rFailMsg : GumroadResponse :=
  { Success := false, Uses := 0, Message := "some error", Purchase := zeroPurchase }

/-- A fixture server answering 200 with `rFailMsg` on every attempt. -/
def serverFailMsg : Nat → HTTPResponse := fun _ =>
  { statusCode := 200, rawBody := "", decoded := .ok rFailMsg }

/-- A refunded purchase whose later-checked fields all disagree with the
later classification rules, to exhibit short-circuiting. -/
def refundedPurchase : Purchase :=
  { zeroPurchase with
    Refunded := true, SubscriptionCancelledAt := 5, SubscriptionFailedAt := 7,
    ProductID := "other", LicenseKey := "different" }

/-- A response that is refunded. -/
def rRefundedEx : GumroadResponse :=
  { Success := true, Uses := 3, Message := "", Purchase := refundedPurchase }

/-- `{"success": true, "purchase": {"subscription_failed_at": 7,
"subscription_id": "xyz"}}` decoded. -/
def subFailPurchase : Purchase :=
  { zeroPurchase with SubscriptionFailedAt := 7, SubscriptionID := "xyz" }

/-- The subscription-renewal-failed response itself. -/
def rSubFailEx : GumroadResponse :=
  { Success := true, Uses := 0, Message := "", Purchase := subFailPurchase }

/-- A fixture server answering 200 with `rSubFailEx` on every attempt. -/
def serverSubFail : Nat → HTTPResponse := fun _ =>
  { statusCode := 200, rawBody := "", decoded := .ok rSubFailEx }

/-- First of a pair of responses agreeing on all classification-relevant
fields and differing elsewhere. -/
def purchaseTenA : Purchase :=
  { zeroPurchase with
    ProductID := "product", LicenseKey := "key", Email := "a@example.com",
    Price := 100, SaleTimestamp := 5 }

/-- The first response of the pair. -/
def rTenA : GumroadResponse :=
  { Success := true, Uses := 1, Message := "", Purchase := purchaseTenA }

/-- Second of the pair: same classification-relevant fields as `rTenA`,
different `Uses`, `Email`, `Price`, `SaleTimestamp`, `SellerID`. -/
def purchaseTenB : Purchase :=
  { zeroPurchase with
    ProductID := "product", LicenseKey := "key", Email := "b@example.com",
    Price := 999, SaleTimestamp := 77, SellerID := "seller" }

/-- The second response of the pair. -/
def rTenB : GumroadResponse :=
  { Success := true, Uses := 42, Message := "", Purchase := purchaseTenB }

/- ### Helper lemmas -/

theorem string_append_assoc (a b c : String) : a ++ b ++ c = a ++ (b ++ c) := by
  apply String.ext
  simp [String.data_append]

theorem string_append_empty (a : String) : a ++ "" = a := by
  apply String.ext
  simp [String.data_append]

/-- If the first attempt returns a non-5xx status whose body decodes, the
verification performs exactly one attempt and returns the classification
of the decoded response. -/
theorem Verify_decode_ok (gp : Product) (key : String) (server : Nat → HTTPResponse)
    (r : GumroadResponse) (hk : key ≠ "")
    (hst : (server 1).statusCode < 500) (hd : (server 1).decoded = .ok r) :
    Verify gp key server =
      { requestsBuilt := 1, attempts := 1, sleeps := [], outOfFuel := false,
        result := classify gp key r } := by
  have hns : ¬ 500 ≤ (server 1).statusCode := Nat.not_le.mpr hst
  simp [Verify, doVerify, hk, hns, hd]

/-- Fuel bound: starting at attempt `t` with `t + fuel = maxRetries + 1`
and `1 ≤ t ≤ maxRetries`, the recursion never exhausts its fuel and
performs at most `fuel` HTTP attempts. -/
theorem doVerify_bounded (gp : Product) (key : String) (server : Nat → HTTPResponse) :
    ∀ fuel t, t + fuel = maxRetries + 1 → 1 ≤ t → t ≤ maxRetries →
      (doVerify gp key server t fuel).outOfFuel = false ∧
      (doVerify gp key server t fuel).attempts ≤ fuel := by
  intro fuel
  induction fuel with
  | zero => intro t h1 _ h3; omega
  | succ n ih =>
    intro t h1 h2 h3
    by_cases hk : key = ""
    · simp [doVerify, hk]
    · by_cases h5 : 500 ≤ (server t).statusCode
      · by_cases hm : t = maxRetries
        · subst hm
          simp [doVerify, hk, h5]
        · obtain ⟨hf, ha⟩ := ih (t + 1) (by omega) (by omega) (by omega)
          simp [doVerify, hk, h5, hm, hf]
          omega
      · rcases hdec : (server t).decoded with e | g
        · simp [doVerify, hk, h5, hdec]
        · simp [doVerify, hk, h5, hdec]

/- ### Claim theorems -/

/-- Claim C1: for every verification call whose HTTP responses all have
status code at least 500, `Verify` retries the whole request, making
exactly 5 attempts in total, sleeping `n * 500` milliseconds between
attempt `n` and attempt `n + 1` (500, 1000, 1500, 2000), and after the 5th
attempt still returns at least 500 it fails with the provider-unavailable
error carrying the raw response body; no 6th attempt is made. -/
theorem C1_provider_unavailable_after_five_attempts (gp : Product) (key : String)
    (server : Nat → HTTPResponse)
    (hk : key ≠ "") (h500 : ∀ n, 500 ≤ (server n).statusCode) :
    Verify gp key server =
      { requestsBuilt := 5, attempts := 5, sleeps := [500, 1000, 1500, 2000],
        outOfFuel := false,
        result := some ("license: likely gumroad issue: " ++ (server 5).rawBody) } := by
  simp [Verify, doVerify, maxRetries, hk, h500 1, h500 2, h500 3, h500 4, h500 5]

theorem C1_witness :
    Verify gpEx "key" serverAll500 =
      { requestsBuilt := 5, attempts := 5, sleeps := [500, 1000, 1500, 2000],
        outOfFuel := false,
        result := some "license: likely gumroad issue: some error" } :=
  C1_provider_unavailable_after_five_attempts gpEx "key" serverAll500
    (by decide) (fun _ => Nat.le_refl 500)

/-- Claim C2: the classification rules are evaluated in the fixed order
success-flag, refunded, subscription-cancelled, subscription-failed,
product-id mismatch, license-key mismatch, custom hook, success; the first
matching condition determines the result and short-circuits the rest — in
particular, a response with `success = true` and `purchase.refunded = true`
is classified as refunded regardless of all other purchase fields. -/
theorem C2_classification_order (gp : Product) (key : String) (r : GumroadResponse) :
    (r.Success = false →
      classify gp key r = some ("license: invalid license: " ++ r.Message)) ∧
    (r.Success = true → r.Purchase.Refunded = true →
      classify gp key r = some "license: license was refunded and is now invalid") ∧
    (r.Success = true → r.Purchase.Refunded = false →
      r.Purchase.SubscriptionCancelledAt ≠ 0 →
      classify gp key r = some "license: subscription was canceled, license is now invalid") ∧
    (r.Success = true → r.Purchase.Refunded = false →
      r.Purchase.SubscriptionCancelledAt = 0 → r.Purchase.SubscriptionFailedAt ≠ 0 →
      classify gp key r =
        some ("license: failed to renew subscription, please check at https://gumroad.com/subscriptions/"
          ++ r.Purchase.SubscriptionID ++ "/manage")) ∧
    (r.Success = true → r.Purchase.Refunded = false →
      r.Purchase.SubscriptionCancelledAt = 0 → r.Purchase.SubscriptionFailedAt = 0 →
      r.Purchase.ProductID ≠ gp.ProductID →
      classify gp key r = some "license: invalid product ID") ∧
    (r.Success = true → r.Purchase.Refunded = false →
      r.Purchase.SubscriptionCancelledAt = 0 → r.Purchase.SubscriptionFailedAt = 0 →
      r.Purchase.ProductID = gp.ProductID → r.Purchase.LicenseKey ≠ key →
      classify gp key r = some "license: invalid license") ∧
    (r.Success = true → r.Purchase.Refunded = false →
      r.Purchase.SubscriptionCancelledAt = 0 → r.Purchase.SubscriptionFailedAt = 0 →
      r.Purchase.ProductID = gp.ProductID → r.Purchase.LicenseKey = key →
      ∀ v, gp.Validate = some v → classify gp key r = v r) ∧
    (r.Success = true → r.Purchase.Refunded = false →
      r.Purchase.SubscriptionCancelledAt = 0 → r.Purchase.SubscriptionFailedAt = 0 →
      r.Purchase.ProductID = gp.ProductID → r.Purchase.LicenseKey = key →
      gp.Validate = none → classify gp key r = none) := by
  refine ⟨?_, ?_, ?_, ?_, ?_, ?_, ?_, ?_⟩ <;> intros <;> simp_all [classify]

theorem C2_witness :
    classify gpEx "key" rRefundedEx = some "license: license was refunded and is now invalid" :=
  (C2_classification_order gpEx "key" rRefundedEx).2.1 rfl rfl

/-- Claim C3 counterexample: for the fixture response
`{"success": true, "purchase": {"sale_timestamp": 1700000000}}` (all other
purchase fields zero) and the verifier for product `product` with key
`key`, `Verify` does NOT return a nil error: it fails with the
product-mismatch error, because the purchase echoes an empty product ID. -/
theorem C3_counterexample :
    (Verify gpEx "key" serverSaleOnly).result = some "license: invalid product ID" ∧
    (Verify gpEx "key" serverSaleOnly).result ≠ none := by
  refine ⟨rfl, ?_⟩
  intro h
  rw [show (Verify gpEx "key" serverSaleOnly).result
      = some "license: invalid product ID" from rfl] at h
  exact Option.noConfusion h

/-- Claim C3 (amended): for a response that decodes to `success = true`
with a purchase containing only a non-zero `sale_timestamp` (all other
purchase fields zero, including `product_id` and `license_key`), `Verify`
with any non-empty key against any verifier with a non-empty product ID
fails with the product-mismatch error `license: invalid product ID` after
exactly one attempt. -/
theorem C3_sale_timestamp_only_fails_product_check (gp : Product) (key : String)
    (server : Nat → HTTPResponse) (r : GumroadResponse) (t : Nat)
    (hk : key ≠ "") (hp : gp.ProductID ≠ "")
    (hst : (server 1).statusCode < 500) (hd : (server 1).decoded = .ok r)
    (hs : r.Success = true) (ht : t ≠ 0)
    (hpur : r.Purchase = { zeroPurchase with SaleTimestamp := t }) :
    Verify gp key server =
      { requestsBuilt := 1, attempts := 1, sleeps := [], outOfFuel := false,
        result := some "license: invalid product ID" } := by
  rw [Verify_decode_ok gp key server r hk hst hd]
  simp [classify, hs, hpur, zeroPurchase, Ne.symm hp]

theorem C3_witness :
    Verify gpEx "key" serverSaleOnly =
      { requestsBuilt := 1, attempts := 1, sleeps := [], outOfFuel := false,
        result := some "license: invalid product ID" } :=
  C3_sale_timestamp_only_fails_product_check gpEx "key" serverSaleOnly rSaleOnly
    1700000000 (by decide) (by decide) (by decide) rfl rfl (by decide) rfl

/-- Claim C4 counterexample: for the fixture response
`{"success": false, "message": "some error"}` the error message is
`license: invalid license: some error`, which is not the claimed
`invalid license: some error` (the code prepends the package prefix
`license: `). -/
theorem C4_counterexample :
    (Verify gpEx "key" serverFailMsg).result = some "license: invalid license: some error" ∧
    (Verify gpEx "key" serverFailMsg).result ≠ some "invalid license: some error" := by
  refine ⟨rfl, ?_⟩
  intro h
  rw [show (Verify gpEx "key" serverFailMsg).result
      = some "license: invalid license: some error" from rfl] at h
  simp at h

/-- Claim C4 (amended): for every response that decodes to
`success = false` with message field `m`, `Verify` fails and the error
message is exactly `license: invalid license: m`. -/
theorem C4_invalid_license_message (gp : Product) (key : String)
    (server : Nat → HTTPResponse) (r : GumroadResponse)
    (hk : key ≠ "") (hst : (server 1).statusCode < 500)
    (hd : (server 1).decoded = .ok r) (hs : r.Success = false) :
    (Verify gp key server).result = some ("license: invalid license: " ++ r.Message) := by
  rw [Verify_decode_ok gp key server r hk hst hd]
  simp [classify, hs]

theorem C4_witness :
    (Verify gpEx "key" serverFailMsg).result = some ("license: invalid license: " ++ "some error") :=
  C4_invalid_license_message gpEx "key" serverFailMsg rFailMsg
    (by decide) (by decide) rfl rfl

/-- Claim C5: for every verifier and every empty license key, `Verify`
fails immediately with the invalid-argument error and performs no network
request: no request is built and none is executed. -/
theorem C5_empty_key_no_request (gp : Product) (server : Nat → HTTPResponse)
    (key : String) (hk : key = "") :
    Verify gp key server =
      { requestsBuilt := 0, attempts := 0, sleeps := [], outOfFuel := false,
        result := some "license: license key cannot be empty" } := by
  subst hk
  simp [Verify, doVerify, maxRetries]

theorem C5_witness :
    Verify gpEx "" serverAll500 =
      { requestsBuilt := 0, attempts := 0, sleeps := [], outOfFuel := false,
        result := some "license: license key cannot be empty" } :=
  C5_empty_key_no_request gpEx serverAll500 "" rfl

/-- Claim C6: `NewProduct` fails with the invalid-argument error on an
empty product identifier (returning no verifier, with no network I/O in
the pure model), succeeds on every non-empty identifier, and the returned
verifier's endpoint is the default production endpoint. -/
theorem C6_new_product (productID : String) :
    (productID = "" → NewProduct productID = .error "license: product ID cannot be empty") ∧
    (productID ≠ "" →
      NewProduct productID =
        .ok { API := defaultAPI, ProductID := productID, Validate := none }) ∧
    defaultAPI = "https://api.gumroad.com/v2/licenses/verify" := by
  refine ⟨?_, ?_, rfl⟩
  · intro h
    simp [NewProduct, h]
  · intro h
    simp [NewProduct, h]

theorem C6_witness :
    NewProduct "" = .error "license: product ID cannot be empty" ∧
    NewProduct "product" = .ok { API := defaultAPI, ProductID := "product", Validate := none } :=
  ⟨(C6_new_product "").1 rfl, (C6_new_product "product").2.1 (by decide)⟩

/-- Claim C7: for every response that decodes to `success = true`,
`refunded = false`, zero `subscription_cancelled_at` and non-zero
`subscription_failed_at` with subscription identifier `s`, `Verify` fails
and the error message contains the literal `s` and the
subscription-management URL referencing `s`. -/
theorem C7_subscription_failed_message (gp : Product) (key : String)
    (server : Nat → HTTPResponse) (r : GumroadResponse) (hk : key ≠ "")
    (hst : (server 1).statusCode < 500) (hd : (server 1).decoded = .ok r)
    (hs : r.Success = true) (hr : r.Purchase.Refunded = false)
    (hc : r.Purchase.SubscriptionCancelledAt = 0)
    (hf : r.Purchase.SubscriptionFailedAt ≠ 0) :
    ∃ msg, (Verify gp key server).result = some msg ∧
      (∃ a b, msg = a ++ r.Purchase.SubscriptionID ++ b) ∧
      (∃ a b, msg = a ++ ("https://gumroad.com/subscriptions/"
        ++ r.Purchase.SubscriptionID ++ "/manage") ++ b) := by
  have hns : ¬ 500 ≤ (server 1).statusCode := Nat.not_le.mpr hst
  refine ⟨"license: failed to renew subscription, please check at https://gumroad.com/subscriptions/"
    ++ r.Purchase.SubscriptionID ++ "/manage", ?_, ?_, ?_⟩
  · simp [Verify, doVerify, hk, hns, hd, classify, hs, hr, hc, hf]
  · exact ⟨"license: failed to renew subscription, please check at https://gumroad.com/subscriptions/",
      "/manage", rfl⟩
  · refine ⟨"license: failed to renew subscription, please check at ", "", ?_⟩
    have hsplit : ("license: failed to renew subscription, please check at https://gumroad.com/subscriptions/" : String)
        = "license: failed to renew subscription, please check at "
          ++ "https://gumroad.com/subscriptions/" := rfl
    rw [string_append_empty]
    conv_lhs => rw [hsplit]
    simp only [string_append_assoc]

theorem C7_witness :
    ∃ msg, (Verify gpEx "key" serverSubFail).result = some msg ∧
      (∃ a b, msg = a ++ rSubFailEx.Purchase.SubscriptionID ++ b) ∧
      (∃ a b, msg = a ++ ("https://gumroad.com/subscriptions/"
        ++ rSubFailEx.Purchase.SubscriptionID ++ "/manage") ++ b) :=
  C7_subscription_failed_message gpEx "key" serverSubFail rSubFailEx
    (by decide) (by decide) rfl rfl rfl rfl (by decide)

/-- Claim C9: for every sequence of server responses, the retry recursion
started by `Verify` (attempt counter 1) terminates without exhausting its
fuel and performs at most `maxRetries = 5` HTTP attempts. -/
theorem C9_retry_recursion_terminates (gp : Product) (key : String)
    (server : Nat → HTTPResponse) :
    (Verify gp key server).outOfFuel = false ∧
    (Verify gp key server).attempts ≤ maxRetries := by
  exact doVerify_bounded gp key server maxRetries 1 (by simp [maxRetries]) (by omega)
    (by simp [maxRetries])

/-- Claim C10: with no custom hook configured, the classification result
depends only on `success`, `message`, `purchase.refunded`,
`purchase.subscription_cancelled_at`, `purchase.subscription_failed_at`,
`purchase.subscription_id`, `purchase.product_id` and
`purchase.license_key`: two decoded responses agreeing on these fields are
classified identically, however the remaining fields differ. -/
theorem C10_classification_noninterference (gp : Product) (key : String)
    (r₁ r₂ : GumroadResponse) (hv : gp.Validate = none)
    (h1 : r₁.Success = r₂.Success) (h2 : r₁.Message = r₂.Message)
    (h3 : r₁.Purchase.Refunded = r₂.Purchase.Refunded)
    (h4 : r₁.Purchase.SubscriptionCancelledAt = r₂.Purchase.SubscriptionCancelledAt)
    (h5 : r₁.Purchase.SubscriptionFailedAt = r₂.Purchase.SubscriptionFailedAt)
    (h6 : r₁.Purchase.SubscriptionID = r₂.Purchase.SubscriptionID)
    (h7 : r₁.Purchase.ProductID = r₂.Purchase.ProductID)
    (h8 : r₁.Purchase.LicenseKey = r₂.Purchase.LicenseKey) :
    classify gp key r₁ = classify gp key r₂ := by
  simp [classify, h1, h2, h3, h4, h5, h6, h7, h8, hv]

theorem C10_witness : classify gpEx "key" rTenA = classify gpEx "key" rTenB :=
  C10_classification_noninterference gpEx "key" rTenA rTenB
    rfl rfl rfl rfl rfl rfl rfl rfl rfl

end GoGumroad

